import Mathlib

/-!
Shallow embedding of the persistence-sync engine of `src/gateway/sync`
(the `syncToR2` orchestrator and its helpers `runCommandWithDetails`,
`checkConfigPath`, `collectFilesystemContext`, `truncateOutput`,
`formatCommandResult`, `buildConfigCheckDetails`, `buildRsyncCheckDetails`),
together with `shellEscapeArg` from `src/gateway/cli.ts`.

The sandbox's remote-process API is modelled as a `Behavior`: a function
from the issued command string to either a raised exception (`Except.error`
carrying the exception message) or the process state observed once the
polling wait has finished (terminal state, or the state at the deadline).
All commands issued by one `syncToR2` invocation are pairwise distinct
strings, so keying the behaviour by command text is faithful.
-/

namespace Moltworker

/-- Logs as returned by `ProcessHandle.getLogs()`: each stream may be absent
(`undefined` in the source). -/
structure Logs where
  stdout : Option String
  stderr : Option String
deriving DecidableEq, Repr

instance {ε α : Type} [DecidableEq ε] [DecidableEq α] : DecidableEq (Except ε α) := fun a b =>
  match a, b with
  | .error x, .error y =>
    if h : x = y then isTrue (congrArg Except.error h)
    else isFalse (fun hc => h (Except.error.inj hc))
  | .ok x, .ok y =>
    if h : x = y then isTrue (congrArg Except.ok h)
    else isFalse (fun hc => h (Except.ok.inj hc))
  | .error _, .ok _ => isFalse (fun hc => Except.noConfusion hc)
  | .ok _, .error _ => isFalse (fun hc => Except.noConfusion hc)

/-- The state of a remote process as observed after the polling wait in
`runCommandWithDetails` (or after `waitForProcess` in the pipeline stage):
`status` and `exitCode` are the values read once the wait loop exits,
`durationMs` the elapsed wall clock, and `getLogs` the outcome of fetching
the captured logs (which is itself a remote call that can throw). -/
structure Proc where
  status : String
  exitCode : Option Int
  durationMs : Nat
  getLogs : Except String Logs
deriving DecidableEq, Repr

/-- One invocation's collaborator behaviour. `startProcess` maps a command
string to the raised exception or the observed process.

`mountResult` — Modelled from the spec: `mountR2Storage` (imported from
`./r2`, not part of the corpus) is the external storage-mount collaborator
whose contract is `mount(credentials) -> boolean`; `true` means the mount
point is ready. -/
structure Behavior where
  mountResult : Bool
  startProcess : String → Except String Proc

/-- `CommandResult` from the source: outcome of one remote command. -/
structure CommandResult where
  command : String
  status : String
  exitCode : Option Int
  stdout : String
  stderr : String
  durationMs : Nat
  didComplete : Bool
deriving DecidableEq, Repr

/-- `ConfigCheckResult extends CommandResult` with the probed path and the
derived `exists` flag. -/
structure ConfigCheckResult extends CommandResult where
  path : String
  «exists» : Bool
deriving DecidableEq, Repr

/-- `SyncResult` from the source. Absent optional fields are `none`. -/
structure SyncResult where
  success : Bool
  lastSync : Option String := none
  error : Option String := none
  details : Option String := none
deriving DecidableEq, Repr

def CONFIG_CHECK_TIMEOUT_MS : Nat := 5000
def RSYNC_CHECK_TIMEOUT_MS : Nat := 5000
def POLL_INTERVAL_MS : Nat := 200
def MAX_LOG_CHARS : Nat := 2000
def OPENCLAW_CONFIG_PATH : String := "/root/.openclaw/openclaw.json"
def CLAWDBOT_CONFIG_PATH : String := "/root/.clawdbot/clawdbot.json"

/-- Modelled from the spec: `R2_MOUNT_PATH` is imported from `../config`
(not part of the corpus); the spec describes it as the well-known root path
at which the storage mount is reachable. No claim depends on its value. -/
def R2_MOUNT_PATH : String := "/data/moltbot"

/-- A single-quote character as a string (ASCII 39). -/
def sq : String := String.singleton (Char.ofNat 39)

/-- JS `value.replace(/'/g, "'\\''")` over the character list: every single
quote becomes quote-backslash-quote-quote. -/
def escapeQuotes : List Char → List Char
  | [] => []
  | c :: rest =>
    if c == Char.ofNat 39 then (sq ++ "\\" ++ sq ++ sq).data ++ escapeQuotes rest
    else c :: escapeQuotes rest

/-- `shellEscapeArg` from `src/gateway/cli.ts`: wrap in single quotes,
replacing every embedded single quote by quote-backslash-quote-quote. -/
def shellEscapeArg (value : String) : String :=
  sq ++ String.mk (escapeQuotes value.data) ++ sq

/-- JS `s.trim()`: strip whitespace from both ends. -/
def jsTrim (s : String) : String :=
  String.mk (((s.data.dropWhile Char.isWhitespace).reverse.dropWhile
    Char.isWhitespace).reverse)

/-- JS truthiness of an optional string: `undefined` and `""` are falsy. -/
def truthy : Option String → Bool
  | none => false
  | some s => s != ""

/-- JS `a || b` for an optional string `a` and a string fallback. -/
def orFalsy (a : Option String) (b : String) : String :=
  match a with
  | none => b
  | some s => if s == "" then b else s

/-- Does `pat` occur at the start of `s`? (character-list helper) -/
def charsStartWith : List Char → List Char → Bool
  | [], _ => true
  | _ :: _, [] => false
  | p :: ps, s :: ss => p == s && charsStartWith ps ss

/-- Does `pat` occur anywhere in `s`? (character-list helper) -/
def charsHaveSub (pat : List Char) : List Char → Bool
  | [] => charsStartWith pat []
  | s :: ss => charsStartWith pat (s :: ss) || charsHaveSub pat ss

/-- JS `s.includes(pat)`. -/
def strHasSub (s pat : String) : Bool := charsHaveSub pat.data s.data

/-- The inline regex `/^\d{4}-\d{2}-\d{2}/` of the verification step:
four digits, dash, two digits, dash, two digits, anchored at the start. -/
def matchesDatePrefix (s : String) : Bool :=
  match s.data with
  | y1 :: y2 :: y3 :: y4 :: h1 :: m1 :: m2 :: h2 :: d1 :: d2 :: _ =>
    y1.isDigit && y2.isDigit && y3.isDigit && y4.isDigit && h1 == '-' &&
    m1.isDigit && m2.isDigit && h2 == '-' && d1.isDigit && d2.isDigit
  | _ => false

/-- `truncateOutput`: cap a stream at `MAX_LOG_CHARS` characters, appending
the truncation marker when the cap is exceeded. -/
def truncateOutput (value : String) : String :=
  if value.length ≤ MAX_LOG_CHARS then value
  else String.mk (value.data.take MAX_LOG_CHARS) ++ "\n...[truncated]"

/-- The record built by `formatCommandResult` (in the source it is a plain
object later serialized by `JSON.stringify`). -/
structure FormattedCommandResult where
  command : String
  status : String
  exitCode : Option Int
  didComplete : Bool
  durationMs : Nat
  stdout : String
  stderr : String
deriving DecidableEq, Repr

/-- `formatCommandResult`: the diagnostic rendering of a `CommandResult`;
this is where the source applies `truncateOutput` to each stream. -/
def formatCommandResult (result : CommandResult) : FormattedCommandResult :=
  { command := result.command
    status := result.status
    exitCode := result.exitCode
    didComplete := result.didComplete
    durationMs := result.durationMs
    stdout := truncateOutput result.stdout
    stderr := truncateOutput result.stderr }

/-- The `{ result?, error? }` shape returned by `collectFilesystemContext`. -/
structure FsContext where
  result : Option CommandResult
  error : Option String
deriving DecidableEq, Repr

def renderOptionInt : Option Int → String
  | none => "null"
  | some n => toString n

/-- Key-value rendering of a formatted command result. The source serializes
with `JSON.stringify(..., null, 2)`; the exact JSON layout is abstracted
here, every field (after truncation) being preserved. -/
def renderFormatted (f : FormattedCommandResult) : String :=
  "command=" ++ f.command ++ "; status=" ++ f.status ++
  "; exitCode=" ++ renderOptionInt f.exitCode ++
  "; didComplete=" ++ toString f.didComplete ++
  "; durationMs=" ++ toString f.durationMs ++
  "; stdout=" ++ f.stdout ++ "; stderr=" ++ f.stderr

def renderCheck (check : ConfigCheckResult) : String :=
  "path=" ++ check.path ++ "; exists=" ++ toString check.«exists» ++ "; " ++
  renderFormatted (formatCommandResult check.toCommandResult)

/-- `buildConfigCheckDetails`: tried paths, each probe's formatted result,
and the filesystem-context snapshot. -/
def buildConfigCheckDetails (checks : List ConfigCheckResult) (fsContext : FsContext) : String :=
  "triedPaths=" ++ String.intercalate "," (checks.map (fun c => c.path)) ++
  " checks=" ++ String.intercalate " | " (checks.map renderCheck) ++
  " fsContext=" ++ (match fsContext.result with
    | some r => renderFormatted (formatCommandResult r)
    | none => "undefined") ++
  " fsContextError=" ++ orFalsy fsContext.error "undefined"

/-- `buildRsyncCheckDetails`. -/
def buildRsyncCheckDetails (result : CommandResult) : String :=
  "check=" ++ renderFormatted (formatCommandResult result)

/-- `runCommandWithDetails`: start the process, wait (poll at
`POLL_INTERVAL_MS`) until a terminal status or the deadline — the observed
post-wait state is what `Behavior.startProcess` supplies — then fetch the
logs once and compute `didComplete`. Exceptions from the remote calls
propagate (`Except.error`). -/
def runCommandWithDetails (sandbox : Behavior) (command : String)
    (timeoutMs : Nat) : Except String CommandResult :=
  match sandbox.startProcess command with
  | .error e => .error e
  | .ok proc =>
    match proc.getLogs with
    | .error e => .error e
    | .ok logs =>
      .ok { command := command
            status := proc.status
            exitCode := proc.exitCode
            stdout := logs.stdout.getD ""
            stderr := logs.stderr.getD ""
            durationMs := proc.durationMs
            didComplete := proc.status != "running" && proc.status != "starting"
              && proc.exitCode.isSome }

/-- The probe command built by `checkConfigPath`. -/
def configCheckCommand (path : String) : String :=
  "sh -lc \"stat -c " ++ sq ++ "%F %s %n" ++ sq ++ " " ++ shellEscapeArg path ++ "\""

/-- `checkConfigPath`: run the stat probe and derive `exists` from
completion, success exit code, and the probed path occurring in stdout. -/
def checkConfigPath (sandbox : Behavior) (path : String) :
    Except String ConfigCheckResult :=
  match runCommandWithDetails sandbox (configCheckCommand path) CONFIG_CHECK_TIMEOUT_MS with
  | .error e => .error e
  | .ok result =>
    .ok { toCommandResult := result
          path := path
          «exists» := result.didComplete && result.exitCode == some 0
            && strHasSub result.stdout path }

/-- The diagnostic command of `collectFilesystemContext`. -/
def fsContextCommand : String :=
  "sh -lc \"pwd; id; echo " ++ sq ++ "--- /root/.openclaw ---" ++ sq ++
  "; ls -la /root/.openclaw 2>&1 || true; echo " ++ sq ++
  "--- /root/.clawdbot ---" ++ sq ++ "; ls -la /root/.clawdbot 2>&1 || true\""

/-- `collectFilesystemContext`: best-effort snapshot; its own exceptions are
caught and reduced to an error string. -/
def collectFilesystemContext (sandbox : Behavior) : FsContext :=
  match runCommandWithDetails sandbox fsContextCommand CONFIG_CHECK_TIMEOUT_MS with
  | .ok result => { result := some result, error := none }
  | .error e => { result := none, error := some e }

/-- The Worker environment fields consumed by `syncToR2`'s precondition.
Each is an optional string (absent or set, possibly to `""`). -/
structure MoltbotEnv where
  R2_ACCESS_KEY_ID : Option String
  R2_SECRET_ACCESS_KEY : Option String
  CF_ACCOUNT_ID : Option String
deriving DecidableEq, Repr

/-- A remote interaction performed by the orchestrator: the mount call, or
starting a process with a given command string. -/
inductive RemoteCall where
  | mount
  | start (command : String)
deriving DecidableEq, Repr

/-- Outcome of the config-discovery stage: a chosen config directory, or an
early-returned failure `SyncResult`. -/
inductive ConfigOutcome where
  | chosen (dir : String)
  | failed (result : SyncResult)
deriving DecidableEq, Repr

/-- The config-discovery stage of `syncToR2` (its inline
try-block over `checkConfigPath`, `collectFilesystemContext` and the two
detail builders), paired with the commands it starts, in order. A thrown
probe maps to the catch branch: `"Failed to verify source files"` with the
exception message as detail. -/
def locateConfigDir (sandbox : Behavior) : ConfigOutcome × List String :=
  match checkConfigPath sandbox OPENCLAW_CONFIG_PATH with
  | .error e =>
    (.failed { success := false, error := some "Failed to verify source files",
               details := some e },
     [configCheckCommand OPENCLAW_CONFIG_PATH])
  | .ok checkNew =>
    if checkNew.«exists» then
      (.chosen "/root/.openclaw", [configCheckCommand OPENCLAW_CONFIG_PATH])
    else
      match checkConfigPath sandbox CLAWDBOT_CONFIG_PATH with
      | .error e =>
        (.failed { success := false, error := some "Failed to verify source files",
                   details := some e },
         [configCheckCommand OPENCLAW_CONFIG_PATH, configCheckCommand CLAWDBOT_CONFIG_PATH])
      | .ok checkLegacy =>
        if checkLegacy.«exists» then
          (.chosen "/root/.clawdbot",
           [configCheckCommand OPENCLAW_CONFIG_PATH, configCheckCommand CLAWDBOT_CONFIG_PATH])
        else if !checkNew.didComplete || !checkLegacy.didComplete then
          (.failed { success := false,
                     error := some "Sync aborted: config check did not complete",
                     details := some (buildConfigCheckDetails [checkNew, checkLegacy]
                       (collectFilesystemContext sandbox)) },
           [configCheckCommand OPENCLAW_CONFIG_PATH, configCheckCommand CLAWDBOT_CONFIG_PATH,
            fsContextCommand])
        else
          (.failed { success := false,
                     error := some "Sync aborted: no config file found",
                     details := some (buildConfigCheckDetails [checkNew, checkLegacy]
                       (collectFilesystemContext sandbox)) },
           [configCheckCommand OPENCLAW_CONFIG_PATH, configCheckCommand CLAWDBOT_CONFIG_PATH,
            fsContextCommand])

/-- The rsync-availability probe command. -/
def rsyncCheckCommand : String := "sh -lc \"command -v rsync\""

/-- `--exclude='<pat>'` as spelled in the pipeline template. -/
def excl (pat : String) : String := "--exclude=" ++ sq ++ pat ++ sq

/-- First pipeline stage: mirror the chosen config directory to
`R2:/openclaw/`. -/
def rsyncConfigStage (configDir : String) : String :=
  "rsync -r --no-times --delete " ++ excl "*.lock" ++ " " ++ excl "*.log" ++
  " " ++ excl "*.tmp" ++ " " ++ configDir ++ "/ " ++ R2_MOUNT_PATH ++ "/openclaw/"

/-- Second pipeline stage: mirror the workspace to `R2:/workspace/`. -/
def rsyncWorkspaceStage : String :=
  "rsync -r --no-times --delete " ++ excl "skills" ++ " /root/clawd/ " ++
  R2_MOUNT_PATH ++ "/workspace/"

/-- Third pipeline stage: mirror the workspace again to the legacy
`R2:/clawd/` destination. -/
def rsyncClawdStage : String :=
  "rsync -r --no-times --delete " ++ excl "skills" ++ " /root/clawd/ " ++
  R2_MOUNT_PATH ++ "/clawd/"

/-- Fourth pipeline stage: mirror the skills subdirectory to `R2:/skills/`. -/
def rsyncSkillsStage : String :=
  "rsync -r --no-times --delete /root/clawd/skills/ " ++ R2_MOUNT_PATH ++ "/skills/"

/-- The four rsync copy stages of the pipeline, in order. -/
def pipelineRsyncStages (configDir : String) : List String :=
  [rsyncConfigStage configDir, rsyncWorkspaceStage, rsyncClawdStage, rsyncSkillsStage]

/-- The full `syncCmd` shell pipeline: the four rsync stages chained with
`&&` (the workspace/skills stages guarded by directory-existence tests),
ending with the timestamp-marker write. -/
def syncCommand (configDir : String) : String :=
  rsyncConfigStage configDir ++ " && " ++
  "if [ -d /root/clawd ]; then " ++ rsyncWorkspaceStage ++ "; fi && " ++
  "if [ -d /root/clawd ]; then " ++ rsyncClawdStage ++ "; fi && " ++
  "if [ -d /root/clawd/skills ]; then " ++ rsyncSkillsStage ++ "; fi && " ++
  "date -Iseconds > " ++ R2_MOUNT_PATH ++ "/.last-sync"

/-- The independent marker-read command of the verification step. -/
def catCommand : String := "cat " ++ R2_MOUNT_PATH ++ "/.last-sync"

/-- The tail of the pipeline try-block reached when marker verification
fails: fetch the pipeline process's own logs (a throwing fetch is caught by
the enclosing catch as `"Sync error"`) and report `"Sync failed"` with
`stderr || stdout || 'No timestamp file created'` as detail. -/
def syncFailedResult (proc : Proc) : SyncResult :=
  match proc.getLogs with
  | .error e => { success := false, error := some "Sync error", details := some e }
  | .ok logs =>
    { success := false, error := some "Sync failed",
      details := some (orFalsy logs.stderr (orFalsy logs.stdout "No timestamp file created")) }

/-- Stage 5 of `syncToR2` (the final try-block): start the sync pipeline,
wait, independently read back the timestamp marker with a second bounded
command, and grant success only when the trimmed marker matches the
date-prefix shape; any exception in this stage is caught as `"Sync error"`
with the exception message as detail. Paired with the remote calls this
stage performs. -/
def runPipelineT (sandbox : Behavior) (configDir : String) : SyncResult × List RemoteCall :=
  match sandbox.startProcess (syncCommand configDir) with
  | .error e =>
    ({ success := false, error := some "Sync error", details := some e },
     [.start (syncCommand configDir)])
  | .ok proc =>
    match sandbox.startProcess catCommand with
    | .error e =>
      ({ success := false, error := some "Sync error", details := some e },
       [.start (syncCommand configDir), .start catCommand])
    | .ok timestampProc =>
      match timestampProc.getLogs with
      | .error e =>
        ({ success := false, error := some "Sync error", details := some e },
         [.start (syncCommand configDir), .start catCommand])
      | .ok timestampLogs =>
        match timestampLogs.stdout with
        | some raw =>
          let lastSync := jsTrim raw
          if lastSync != "" && matchesDatePrefix lastSync then
            ({ success := true, lastSync := some lastSync },
             [.start (syncCommand configDir), .start catCommand])
          else
            (syncFailedResult proc, [.start (syncCommand configDir), .start catCommand])
        | none => (syncFailedResult proc, [.start (syncCommand configDir), .start catCommand])

/-- Stage 4 of `syncToR2` (its rsync try-block): probe `command -v rsync`;
an unfinished probe aborts as incomplete, a non-zero exit code or blank
stdout aborts as unavailable, a thrown probe aborts as check-failed;
otherwise the pipeline stage runs. -/
def rsyncGateT (sandbox : Behavior) (configDir : String) : SyncResult × List RemoteCall :=
  match runCommandWithDetails sandbox rsyncCheckCommand RSYNC_CHECK_TIMEOUT_MS with
  | .error e =>
    ({ success := false, error := some "Sync aborted: rsync check failed",
       details := some e }, [.start rsyncCheckCommand])
  | .ok rsyncCheck =>
    if !rsyncCheck.didComplete then
      ({ success := false, error := some "Sync aborted: rsync check did not complete",
         details := some (buildRsyncCheckDetails rsyncCheck) }, [.start rsyncCheckCommand])
    else if rsyncCheck.exitCode != some 0 || jsTrim rsyncCheck.stdout == "" then
      ({ success := false, error := some "Sync aborted: rsync is not available",
         details := some (buildRsyncCheckDetails rsyncCheck) }, [.start rsyncCheckCommand])
    else
      ((runPipelineT sandbox configDir).1,
       .start rsyncCheckCommand :: (runPipelineT sandbox configDir).2)

/-- `syncToR2`, instrumented with the trace of remote calls it performs:
precondition, mount, config discovery, rsync availability, then the
pipelined sync plus independent marker verification, every stage failure
returned as data. -/
def syncToR2T (sandbox : Behavior) (env : MoltbotEnv) : SyncResult × List RemoteCall :=
  if !truthy env.R2_ACCESS_KEY_ID || !truthy env.R2_SECRET_ACCESS_KEY
      || !truthy env.CF_ACCOUNT_ID then
    ({ success := false, error := some "R2 storage is not configured" }, [])
  else if !sandbox.mountResult then
    ({ success := false, error := some "Failed to mount R2 storage" }, [.mount])
  else
    match locateConfigDir sandbox with
    | (.failed result, calls) => (result, .mount :: calls.map RemoteCall.start)
    | (.chosen configDir, calls) =>
      ((rsyncGateT sandbox configDir).1,
       (RemoteCall.mount :: calls.map RemoteCall.start) ++ (rsyncGateT sandbox configDir).2)

/-- `syncToR2` proper: the structured result of the instrumented run. -/
def syncToR2 (sandbox : Behavior) (env : MoltbotEnv) : SyncResult :=
  (syncToR2T sandbox env).1

/-- The error-classification strings `syncToR2` can return. -/
def errorTaxonomy : List String :=
  ["R2 storage is not configured", "Failed to mount R2 storage",
   "Failed to verify source files", "Sync aborted: config check did not complete",
   "Sync aborted: no config file found", "Sync aborted: rsync check did not complete",
   "Sync aborted: rsync is not available", "Sync aborted: rsync check failed",
   "Sync failed", "Sync error"]

/-! Concrete fixtures used by witness theorems. -/

/-- A process that reached `completed` with a given exit code and stdout. -/
def okProc (code : Int) (out : String) : Proc :=
  { status := "completed", exitCode := some code, durationMs := 100,
    getLogs := .ok { stdout := some out, stderr := some "" } }

/-- A process still `running` when the deadline fires: no exit code yet. -/
def spinningProc : Proc :=
  { status := "running", exitCode := none, durationMs := 5000,
    getLogs := .ok { stdout := some "", stderr := some "" } }

/-- Behaviour keyed on the five distinct commands one invocation issues;
anything that is none of the four named probes (i.e. the sync pipeline)
gets `pipe`. -/
def mkBehavior (statNew statLegacy rsync cat pipe : Except String Proc) : Behavior :=
  { mountResult := true,
    startProcess := fun cmd =>
      if cmd == configCheckCommand OPENCLAW_CONFIG_PATH then statNew
      else if cmd == configCheckCommand CLAWDBOT_CONFIG_PATH then statLegacy
      else if cmd == rsyncCheckCommand then rsync
      else if cmd == catCommand then cat
      else if cmd == fsContextCommand then .ok (okProc 0 "ctx")
      else pipe }

def envAll : MoltbotEnv :=
  { R2_ACCESS_KEY_ID := some "key", R2_SECRET_ACCESS_KEY := some "secret",
    CF_ACCOUNT_ID := some "acct" }

def envNoSecret : MoltbotEnv :=
  { R2_ACCESS_KEY_ID := some "key", R2_SECRET_ACCESS_KEY := none,
    CF_ACCOUNT_ID := some "acct" }

/-- Stat output that contains the probed path (what a successful probe
prints). -/
def statOut (path : String) : String := "regular file 123 " ++ path

/-! Helper lemmas shared by several claim proofs. -/

/-- Every failure produced by the config-discovery stage is one of its three
classifications, and is not a success. -/
theorem locate_failed_cases (sandbox : Behavior) (r : SyncResult) (calls : List String)
    (h : locateConfigDir sandbox = (.failed r, calls)) :
    r.success = false ∧
      (r.error = some "Failed to verify source files" ∨
       r.error = some "Sync aborted: config check did not complete" ∨
       r.error = some "Sync aborted: no config file found") := by
  unfold locateConfigDir at h
  repeat' split at h
  all_goals
    simp only [Prod.mk.injEq, ConfigOutcome.failed.injEq, reduceCtorEq, false_and] at h
  all_goals obtain ⟨h1, -⟩ := h
  all_goals subst h1
  all_goals simp

/-- The marker-verification failure tail is never a success and always one
of the two pipeline failure classifications. -/
theorem syncFailedResult_cases (p : Proc) :
    (syncFailedResult p).success = false ∧
      ((syncFailedResult p).error = some "Sync failed" ∨
       (syncFailedResult p).error = some "Sync error") := by
  unfold syncFailedResult
  split <;> simp

/-- The pipeline stage yields either a shape-validated success or a failure
classified `"Sync failed"` / `"Sync error"`. -/
theorem runPipeline_cases (sandbox : Behavior) (configDir : String) :
    ((runPipelineT sandbox configDir).1.success = true ∧
      (runPipelineT sandbox configDir).1.error = none ∧
      ∃ ts, (runPipelineT sandbox configDir).1.lastSync = some ts ∧
        matchesDatePrefix ts = true) ∨
    ((runPipelineT sandbox configDir).1.success = false ∧
      ((runPipelineT sandbox configDir).1.error = some "Sync failed" ∨
       (runPipelineT sandbox configDir).1.error = some "Sync error")) := by
  unfold runPipelineT
  rcases hp : sandbox.startProcess (syncCommand configDir) with e | p <;> simp only [hp]
  · right; simp
  · rcases ht : sandbox.startProcess catCommand with e | tp <;> simp only [ht]
    · right; simp
    · rcases htl : tp.getLogs with e | tl <;> simp only [htl]
      · right; simp
      · rcases hs : tl.stdout with _ | raw <;> simp only [hs]
        · right; exact syncFailedResult_cases p
        · split
          · rename_i hguard
            left
            rw [Bool.and_eq_true] at hguard
            exact ⟨rfl, rfl, jsTrim raw, rfl, hguard.2⟩
          · right; exact syncFailedResult_cases p

/-- The rsync gate either defers to the pipeline stage or fails with one of
its three classifications. -/
theorem rsyncGate_cases (sandbox : Behavior) (configDir : String) :
    (rsyncGateT sandbox configDir).1 = (runPipelineT sandbox configDir).1 ∨
    ((rsyncGateT sandbox configDir).1.success = false ∧
      ((rsyncGateT sandbox configDir).1.error = some "Sync aborted: rsync check failed" ∨
       (rsyncGateT sandbox configDir).1.error = some "Sync aborted: rsync check did not complete" ∨
       (rsyncGateT sandbox configDir).1.error = some "Sync aborted: rsync is not available")) := by
  unfold rsyncGateT
  rcases h : runCommandWithDetails sandbox rsyncCheckCommand RSYNC_CHECK_TIMEOUT_MS
      with e | rc <;> simp only [h]
  · right; simp
  · split
    · right; simp
    · split
      · right; simp
      · left; rfl

/-- The orchestrator either reaches the rsync gate with a chosen config
directory, or stops earlier with one of the five pre-pipeline
classifications. -/
theorem syncToR2_stage_cases (sandbox : Behavior) (env : MoltbotEnv) :
    (∃ dir, syncToR2 sandbox env = (rsyncGateT sandbox dir).1) ∨
    ((syncToR2 sandbox env).success = false ∧
      ((syncToR2 sandbox env).error = some "R2 storage is not configured" ∨
       (syncToR2 sandbox env).error = some "Failed to mount R2 storage" ∨
       (syncToR2 sandbox env).error = some "Failed to verify source files" ∨
       (syncToR2 sandbox env).error = some "Sync aborted: config check did not complete" ∨
       (syncToR2 sandbox env).error = some "Sync aborted: no config file found")) := by
  unfold syncToR2 syncToR2T
  split
  · right; simp
  · split
    · right; simp
    · rcases hloc : locateConfigDir sandbox with ⟨o, lcalls⟩
      cases o with
      | chosen dir => left; exact ⟨dir, by simp [hloc]⟩
      | failed r =>
        right
        obtain ⟨h1, h2⟩ := locate_failed_cases sandbox r lcalls hloc
        simp only [hloc]
        rcases h2 with h | h | h <;> simp [h1, h]

/-- With credentials present, the mount succeeding, and a config directory
chosen, the orchestrator's result is the rsync gate's result. -/
theorem syncToR2_chosen (sandbox : Behavior) (env : MoltbotEnv) (dir : String)
    (lcalls : List String)
    (hkey : truthy env.R2_ACCESS_KEY_ID = true)
    (hsec : truthy env.R2_SECRET_ACCESS_KEY = true)
    (hacct : truthy env.CF_ACCOUNT_ID = true)
    (hmount : sandbox.mountResult = true)
    (hloc : locateConfigDir sandbox = (.chosen dir, lcalls)) :
    syncToR2 sandbox env = (rsyncGateT sandbox dir).1 := by
  unfold syncToR2 syncToR2T
  simp [hkey, hsec, hacct, hmount, hloc]

/-- When the availability probe completed with exit code 0 and non-blank
stdout, the rsync gate defers to the pipeline stage. -/
theorem rsyncGate_ok (sandbox : Behavior) (dir : String) (rc : CommandResult)
    (hrc : runCommandWithDetails sandbox rsyncCheckCommand RSYNC_CHECK_TIMEOUT_MS = .ok rc)
    (h1 : rc.didComplete = true) (h2 : rc.exitCode = some 0)
    (h3 : jsTrim rc.stdout ≠ "") :
    (rsyncGateT sandbox dir).1 = (runPipelineT sandbox dir).1 := by
  have h3b : (jsTrim rc.stdout == "") = false := beq_eq_false_iff_ne.mpr h3
  unfold rsyncGateT
  simp [hrc, h1, h2, h3b]

/-- Claim C10: when any of the R2 access key, R2 secret key, or account id
is absent (or empty, which the source's truthiness test also rejects),
`syncToR2` immediately returns the `"R2 storage is not configured"` failure
and performs no remote interaction at all: no mount call and no process
start (the instrumented trace is empty). -/
theorem not_configured_short_circuits (sandbox : Behavior) (env : MoltbotEnv)
    (h : truthy env.R2_ACCESS_KEY_ID = false ∨ truthy env.R2_SECRET_ACCESS_KEY = false
      ∨ truthy env.CF_ACCOUNT_ID = false) :
    syncToR2T sandbox env =
      ({ success := false, error := some "R2 storage is not configured" }, []) := by
  rcases h with h | h | h <;> simp [syncToR2T, h]

/-- Witness for C10: with the secret key absent, the concrete run returns
the not-configured failure with an empty remote-call trace. -/
theorem not_configured_short_circuits_witness :
    syncToR2T (mkBehavior (.ok spinningProc) (.ok spinningProc) (.ok spinningProc)
        (.ok spinningProc) (.ok spinningProc)) envNoSecret =
      ({ success := false, error := some "R2 storage is not configured" }, []) :=
  not_configured_short_circuits _ envNoSecret (Or.inr (Or.inl rfl))

/-- Claim C6: a `ConfigCheckResult` has `exists = true` only if the probe
completed (`didComplete = true`), its exit code is `0`, and its captured
stdout contains the exact probed path string; exit-code success alone never
suffices. -/
theorem config_exists_requires_all (sandbox : Behavior) (path : String)
    (r : ConfigCheckResult) (h : checkConfigPath sandbox path = .ok r)
    (he : r.«exists» = true) :
    r.didComplete = true ∧ r.exitCode = some 0 ∧ strHasSub r.stdout path = true := by
  unfold checkConfigPath at h
  cases hrun : runCommandWithDetails sandbox (configCheckCommand path) CONFIG_CHECK_TIMEOUT_MS with
  | error e => rw [hrun] at h; exact absurd h (by simp)
  | ok result =>
    rw [hrun] at h
    injection h with h
    subst h
    simp only [Bool.and_eq_true, beq_iff_eq] at he
    exact ⟨he.1.1, he.1.2, he.2⟩

/-- Witness for C6: a completed probe with exit code 0 whose stdout echoes
the probed path yields `exists = true`, and the three guarantees hold. -/
theorem config_exists_requires_all_witness :
    ({ command := configCheckCommand OPENCLAW_CONFIG_PATH, status := "completed",
       exitCode := some 0, stdout := statOut OPENCLAW_CONFIG_PATH, stderr := "",
       durationMs := 100, didComplete := true, path := OPENCLAW_CONFIG_PATH,
       «exists» := true } : ConfigCheckResult).didComplete = true ∧
    ({ command := configCheckCommand OPENCLAW_CONFIG_PATH, status := "completed",
       exitCode := some 0, stdout := statOut OPENCLAW_CONFIG_PATH, stderr := "",
       durationMs := 100, didComplete := true, path := OPENCLAW_CONFIG_PATH,
       «exists» := true } : ConfigCheckResult).exitCode = some 0 ∧
    strHasSub (statOut OPENCLAW_CONFIG_PATH) OPENCLAW_CONFIG_PATH = true :=
  config_exists_requires_all
    (mkBehavior (.ok (okProc 0 (statOut OPENCLAW_CONFIG_PATH))) (.ok spinningProc)
      (.ok spinningProc) (.ok spinningProc) (.ok spinningProc))
    OPENCLAW_CONFIG_PATH _ (by decide) (by decide)

/-- Claim C1: when neither config probe reports `exists = true` and either
probe has `didComplete = false` (regardless of the other probe's result),
`syncToR2` fails with `"Sync aborted: config check did not complete"`. -/
theorem config_incomplete_aborts (sandbox : Behavior) (env : MoltbotEnv)
    (checkNew checkLegacy : ConfigCheckResult)
    (hkey : truthy env.R2_ACCESS_KEY_ID = true)
    (hsec : truthy env.R2_SECRET_ACCESS_KEY = true)
    (hacct : truthy env.CF_ACCOUNT_ID = true)
    (hmount : sandbox.mountResult = true)
    (hNew : checkConfigPath sandbox OPENCLAW_CONFIG_PATH = .ok checkNew)
    (hLeg : checkConfigPath sandbox CLAWDBOT_CONFIG_PATH = .ok checkLegacy)
    (heNew : checkNew.«exists» = false)
    (heLeg : checkLegacy.«exists» = false)
    (hdc : checkNew.didComplete = false ∨ checkLegacy.didComplete = false) :
    (syncToR2 sandbox env).error = some "Sync aborted: config check did not complete" := by
  have hb : (!checkNew.didComplete || !checkLegacy.didComplete) = true := by
    rcases hdc with h | h <;> simp [h]
  have hloc : locateConfigDir sandbox =
      (.failed { success := false,
                 error := some "Sync aborted: config check did not complete",
                 details := some (buildConfigCheckDetails [checkNew, checkLegacy]
                   (collectFilesystemContext sandbox)) },
       [configCheckCommand OPENCLAW_CONFIG_PATH, configCheckCommand CLAWDBOT_CONFIG_PATH,
        fsContextCommand]) := by
    unfold locateConfigDir
    simp [hNew, hLeg, heNew, heLeg, hb]
  unfold syncToR2 syncToR2T
  simp [hkey, hsec, hacct, hmount, hloc]

/-- A probe cut off while still `running` (no exit code observed). -/
def incompleteCheck (path : String) : ConfigCheckResult :=
  { command := configCheckCommand path, status := "running", exitCode := none,
    stdout := "", stderr := "", durationMs := 5000, didComplete := false,
    path := path, «exists» := false }

def c1Behavior : Behavior :=
  mkBehavior (.ok spinningProc) (.ok spinningProc) (.ok spinningProc)
    (.ok spinningProc) (.ok spinningProc)

/-- Witness for C1: both probes hang until the deadline (so both report
absence and incompleteness); the run aborts as config-check-incomplete. -/
theorem config_incomplete_aborts_witness :
    (syncToR2 c1Behavior envAll).error = some "Sync aborted: config check did not complete" :=
  config_incomplete_aborts c1Behavior envAll (incompleteCheck OPENCLAW_CONFIG_PATH)
    (incompleteCheck CLAWDBOT_CONFIG_PATH) rfl rfl rfl rfl (by decide) (by decide)
    rfl rfl (Or.inl rfl)

/-- Claim C5: when the new-path probe reports absence and the legacy-path
probe reports presence, the orchestrator chooses `/root/.clawdbot` and the
config-discovery stage does not fail (no config-stage classification can be
returned). -/
theorem legacy_config_chosen (sandbox : Behavior) (env : MoltbotEnv)
    (checkNew checkLegacy : ConfigCheckResult)
    (hNew : checkConfigPath sandbox OPENCLAW_CONFIG_PATH = .ok checkNew)
    (heNew : checkNew.«exists» = false)
    (hLeg : checkConfigPath sandbox CLAWDBOT_CONFIG_PATH = .ok checkLegacy)
    (heLeg : checkLegacy.«exists» = true) :
    (locateConfigDir sandbox).1 = .chosen "/root/.clawdbot" ∧
    (∀ m, (syncToR2 sandbox env).error = some m →
      m ≠ "Failed to verify source files" ∧
      m ≠ "Sync aborted: config check did not complete" ∧
      m ≠ "Sync aborted: no config file found") := by
  have hloc : locateConfigDir sandbox =
      (.chosen "/root/.clawdbot",
       [configCheckCommand OPENCLAW_CONFIG_PATH, configCheckCommand CLAWDBOT_CONFIG_PATH]) := by
    unfold locateConfigDir
    simp [hNew, hLeg, heNew, heLeg]
  refine ⟨by rw [hloc], ?_⟩
  intro m hm
  unfold syncToR2 syncToR2T at hm
  simp only [hloc] at hm
  split at hm
  · simp at hm; subst hm; decide
  · split at hm
    · simp at hm; subst hm; decide
    · simp only at hm
      rcases rsyncGate_cases sandbox "/root/.clawdbot" with heq | ⟨-, hc | hc | hc⟩
      · rw [heq] at hm
        rcases runPipeline_cases sandbox "/root/.clawdbot" with ⟨-, hnone, -⟩ | ⟨-, hc | hc⟩
        · rw [hnone] at hm; exact Option.noConfusion hm
        · rw [hc] at hm; injection hm with hm; subst hm; decide
        · rw [hc] at hm; injection hm with hm; subst hm; decide
      · rw [hc] at hm; injection hm with hm; subst hm; decide
      · rw [hc] at hm; injection hm with hm; subst hm; decide
      · rw [hc] at hm; injection hm with hm; subst hm; decide

def c5Behavior : Behavior :=
  mkBehavior (.ok (okProc 1 "")) (.ok (okProc 0 (statOut CLAWDBOT_CONFIG_PATH)))
    (.ok spinningProc) (.ok spinningProc) (.ok spinningProc)

def c5CheckNew : ConfigCheckResult :=
  { command := configCheckCommand OPENCLAW_CONFIG_PATH, status := "completed",
    exitCode := some 1, stdout := "", stderr := "", durationMs := 100,
    didComplete := true, path := OPENCLAW_CONFIG_PATH, «exists» := false }

def c5CheckLegacy : ConfigCheckResult :=
  { command := configCheckCommand CLAWDBOT_CONFIG_PATH, status := "completed",
    exitCode := some 0, stdout := statOut CLAWDBOT_CONFIG_PATH, stderr := "",
    durationMs := 100, didComplete := true, path := CLAWDBOT_CONFIG_PATH,
    «exists» := true }

/-- Witness for C5: new path absent (exit 1), legacy path present; the
legacy directory is chosen. -/
theorem legacy_config_chosen_witness :
    (locateConfigDir c5Behavior).1 = .chosen "/root/.clawdbot" :=
  (legacy_config_chosen c5Behavior envAll c5CheckNew c5CheckLegacy
    (by decide) rfl (by decide) rfl).1

/-- Claim C7: at the tool-availability stage the tool counts as available
only when the probe completed, exited 0, and printed non-blank output: an
incomplete probe aborts as `"Sync aborted: rsync check did not complete"`,
a completed probe with non-zero exit or blank stdout aborts as
`"Sync aborted: rsync is not available"` (in particular exit 0 with empty
stdout), and when all three hold neither abort can be returned. -/
theorem rsync_availability_gate (sandbox : Behavior) (env : MoltbotEnv)
    (dir : String) (lcalls : List String) (rc : CommandResult)
    (hkey : truthy env.R2_ACCESS_KEY_ID = true)
    (hsec : truthy env.R2_SECRET_ACCESS_KEY = true)
    (hacct : truthy env.CF_ACCOUNT_ID = true)
    (hmount : sandbox.mountResult = true)
    (hloc : locateConfigDir sandbox = (.chosen dir, lcalls))
    (hrc : runCommandWithDetails sandbox rsyncCheckCommand RSYNC_CHECK_TIMEOUT_MS = .ok rc) :
    (rc.didComplete = false →
      (syncToR2 sandbox env).error = some "Sync aborted: rsync check did not complete") ∧
    (rc.didComplete = true → (rc.exitCode ≠ some 0 ∨ jsTrim rc.stdout = "") →
      (syncToR2 sandbox env).error = some "Sync aborted: rsync is not available") ∧
    (rc.didComplete = true → rc.exitCode = some 0 → jsTrim rc.stdout ≠ "" →
      ∀ m, (syncToR2 sandbox env).error = some m →
        m ≠ "Sync aborted: rsync check did not complete" ∧
        m ≠ "Sync aborted: rsync is not available") := by
  have hred : syncToR2 sandbox env = (rsyncGateT sandbox dir).1 :=
    syncToR2_chosen sandbox env dir lcalls hkey hsec hacct hmount hloc
  refine ⟨?_, ?_, ?_⟩
  · intro h
    rw [hred]; unfold rsyncGateT
    simp [hrc, h]
  · intro h1 h2
    have hb : (rc.exitCode != some 0 || (jsTrim rc.stdout == "")) = true := by
      rcases h2 with h | h
      · simp [bne_iff_ne, h]
      · simp [h]
    rw [hred]; unfold rsyncGateT
    simp [hrc, h1, hb]
  · intro h1 h2 h3 m hm
    rw [hred, rsyncGate_ok sandbox dir rc hrc h1 h2 h3] at hm
    rcases runPipeline_cases sandbox dir with ⟨-, hnone, -⟩ | ⟨-, hc | hc⟩
    · rw [hnone] at hm; exact Option.noConfusion hm
    · rw [hc] at hm; injection hm with hm; subst hm; decide
    · rw [hc] at hm; injection hm with hm; subst hm; decide

def c7Behavior : Behavior :=
  mkBehavior (.ok (okProc 0 (statOut OPENCLAW_CONFIG_PATH))) (.ok spinningProc)
    (.ok (okProc 0 "")) (.ok spinningProc) (.ok spinningProc)

def c7Check : CommandResult :=
  { command := rsyncCheckCommand, status := "completed", exitCode := some 0,
    stdout := "", stderr := "", durationMs := 100, didComplete := true }

/-- Witness for C7: the availability probe exits 0 but prints nothing; the
sync aborts with the unavailable classification. -/
theorem rsync_availability_gate_witness :
    (syncToR2 c7Behavior envAll).error = some "Sync aborted: rsync is not available" :=
  (rsync_availability_gate c7Behavior envAll "/root/.openclaw"
      [configCheckCommand OPENCLAW_CONFIG_PATH] c7Check rfl rfl rfl rfl
      (by decide) (by decide)).2.1 rfl (Or.inr rfl)

/-- Claim C2: for every environment and every collaborator behaviour
(exceptions included) `syncToR2` returns a `SyncResult` — success, or a
failure whose classification is one of the taxonomy strings, never an
escaping exception — and an exception raised while starting the sync
pipeline is caught and converted to the `"Sync error"` result carrying the
exception's message as details. -/
theorem sync_returns_result (sandbox : Behavior) (env : MoltbotEnv) :
    ((syncToR2 sandbox env).success = true ∨
      ∃ m, (syncToR2 sandbox env).error = some m ∧ m ∈ errorTaxonomy) ∧
    (∀ (dir : String) (lcalls : List String) (rc : CommandResult) (msg : String),
      truthy env.R2_ACCESS_KEY_ID = true → truthy env.R2_SECRET_ACCESS_KEY = true →
      truthy env.CF_ACCOUNT_ID = true → sandbox.mountResult = true →
      locateConfigDir sandbox = (.chosen dir, lcalls) →
      runCommandWithDetails sandbox rsyncCheckCommand RSYNC_CHECK_TIMEOUT_MS = .ok rc →
      rc.didComplete = true → rc.exitCode = some 0 → jsTrim rc.stdout ≠ "" →
      sandbox.startProcess (syncCommand dir) = .error msg →
      syncToR2 sandbox env =
        { success := false, error := some "Sync error", details := some msg }) := by
  constructor
  · rcases syncToR2_stage_cases sandbox env with ⟨dir, heq⟩ | ⟨-, hc⟩
    · rw [heq]
      rcases rsyncGate_cases sandbox dir with heq2 | ⟨-, hc⟩
      · rw [heq2]
        rcases runPipeline_cases sandbox dir with ⟨hs, -, -⟩ | ⟨-, hc⟩
        · exact Or.inl hs
        · rcases hc with hc | hc <;> exact Or.inr ⟨_, hc, by decide⟩
      · rcases hc with hc | hc | hc <;> exact Or.inr ⟨_, hc, by decide⟩
    · rcases hc with hc | hc | hc | hc | hc <;> exact Or.inr ⟨_, hc, by decide⟩
  · intro dir lcalls rc msg hkey hsec hacct hmount hloc hrc h1 h2 h3 hthrow
    rw [syncToR2_chosen sandbox env dir lcalls hkey hsec hacct hmount hloc,
        rsyncGate_ok sandbox dir rc hrc h1 h2 h3]
    unfold runPipelineT
    simp [hthrow]

/-- An availability probe that resolved the rsync binary. -/
def rsyncOkCheck : CommandResult :=
  { command := rsyncCheckCommand, status := "completed", exitCode := some 0,
    stdout := "/usr/bin/rsync", stderr := "", durationMs := 100, didComplete := true }

def c2Behavior : Behavior :=
  mkBehavior (.ok (okProc 0 (statOut OPENCLAW_CONFIG_PATH))) (.ok spinningProc)
    (.ok (okProc 0 "/usr/bin/rsync")) (.ok spinningProc) (.error "transport failed")

/-- Witness for C2: starting the pipeline throws; the exception is returned
as the `"Sync error"` result with its message as details. -/
theorem sync_returns_result_witness :
    syncToR2 c2Behavior envAll =
      { success := false, error := some "Sync error", details := some "transport failed" } :=
  (sync_returns_result c2Behavior envAll).2 "/root/.openclaw"
    [configCheckCommand OPENCLAW_CONFIG_PATH] rsyncOkCheck "transport failed"
    rfl rfl rfl rfl (by decide) (by decide) rfl rfl (by decide) (by decide)

/-- Claim C8: the marker validator is the start-anchored date-prefix shape
(four digits, dash, two digits, dash, two digits): it accepts
"2024-01-01T00:00:00+00:00", rejects "not-a-date" and the empty string, and
every successful run's `lastSync` matches the shape. -/
theorem timestamp_shape_gate :
    matchesDatePrefix "2024-01-01T00:00:00+00:00" = true ∧
    matchesDatePrefix "not-a-date" = false ∧
    matchesDatePrefix "" = false ∧
    ∀ (sandbox : Behavior) (env : MoltbotEnv),
      (syncToR2 sandbox env).success = true →
      ∃ ts, (syncToR2 sandbox env).lastSync = some ts ∧ matchesDatePrefix ts = true := by
  refine ⟨by decide, by decide, by decide, ?_⟩
  intro sandbox env hs
  rcases syncToR2_stage_cases sandbox env with ⟨dir, heq⟩ | ⟨hf, -⟩
  · rw [heq] at hs ⊢
    rcases rsyncGate_cases sandbox dir with heq2 | ⟨hf, -⟩
    · rw [heq2] at hs ⊢
      rcases runPipeline_cases sandbox dir with ⟨-, -, hts⟩ | ⟨hf, -⟩
      · exact hts
      · rw [hf] at hs; exact Bool.noConfusion hs
    · rw [hf] at hs; exact Bool.noConfusion hs
  · rw [hf] at hs; exact Bool.noConfusion hs

def happyBehavior : Behavior :=
  mkBehavior (.ok (okProc 0 (statOut OPENCLAW_CONFIG_PATH))) (.ok spinningProc)
    (.ok (okProc 0 "/usr/bin/rsync")) (.ok (okProc 0 "2024-06-01T10:00:00Z"))
    (.ok (okProc 0 ""))

/-- Witness for C8: a fully successful run's `lastSync` matches the
date-prefix shape. -/
theorem timestamp_shape_gate_witness :
    ∃ ts, (syncToR2 happyBehavior envAll).lastSync = some ts ∧
      matchesDatePrefix ts = true :=
  timestamp_shape_gate.2.2.2 happyBehavior envAll (by decide)

/-- Claim C4: once the pipeline stage is reached without an exception,
success holds iff the trimmed stdout of the independent marker read is
non-empty and matches the date-prefix shape. The pipeline process `p` is
universally quantified and unconstrained — its exit code and terminal
status are never examined — so a shape-matching marker yields success even
when the pipeline command itself failed or timed out. -/
theorem verification_trusts_only_marker (sandbox : Behavior) (env : MoltbotEnv)
    (dir : String) (lcalls : List String) (rc : CommandResult) (p tp : Proc) (tl : Logs)
    (hkey : truthy env.R2_ACCESS_KEY_ID = true)
    (hsec : truthy env.R2_SECRET_ACCESS_KEY = true)
    (hacct : truthy env.CF_ACCOUNT_ID = true)
    (hmount : sandbox.mountResult = true)
    (hloc : locateConfigDir sandbox = (.chosen dir, lcalls))
    (hrc : runCommandWithDetails sandbox rsyncCheckCommand RSYNC_CHECK_TIMEOUT_MS = .ok rc)
    (h1 : rc.didComplete = true) (h2 : rc.exitCode = some 0)
    (h3 : jsTrim rc.stdout ≠ "")
    (hp : sandbox.startProcess (syncCommand dir) = .ok p)
    (ht : sandbox.startProcess catCommand = .ok tp)
    (htl : tp.getLogs = .ok tl) :
    ((syncToR2 sandbox env).success = true ↔
      ∃ raw, tl.stdout = some raw ∧ jsTrim raw ≠ "" ∧
        matchesDatePrefix (jsTrim raw) = true) ∧
    (∀ raw, tl.stdout = some raw → jsTrim raw ≠ "" →
      matchesDatePrefix (jsTrim raw) = true →
      syncToR2 sandbox env = { success := true, lastSync := some (jsTrim raw) }) := by
  have hred : syncToR2 sandbox env = (runPipelineT sandbox dir).1 := by
    rw [syncToR2_chosen sandbox env dir lcalls hkey hsec hacct hmount hloc,
        rsyncGate_ok sandbox dir rc hrc h1 h2 h3]
  constructor
  · rw [hred]; unfold runPipelineT
    rcases hstd : tl.stdout with _ | raw
    · simp [hp, ht, htl, hstd, (syncFailedResult_cases p).1]
    · simp only [hp, ht, htl, hstd]
      split
      · rename_i hguard
        rw [Bool.and_eq_true, bne_iff_ne] at hguard
        exact ⟨fun _ => ⟨raw, rfl, hguard.1, hguard.2⟩, fun _ => rfl⟩
      · rename_i hguard
        constructor
        · intro hsucc
          exact Bool.noConfusion ((syncFailedResult_cases p).1.symm.trans hsucc)
        · rintro ⟨raw2, hraw, hne, hmatch⟩
          have hr : raw = raw2 := Option.some.inj hraw
          subst hr
          exact absurd (by rw [Bool.and_eq_true, bne_iff_ne]; exact ⟨hne, hmatch⟩) hguard
  · intro raw hraw hne hmatch
    have hguard : (jsTrim raw != "" && matchesDatePrefix (jsTrim raw)) = true := by
      rw [Bool.and_eq_true, bne_iff_ne]; exact ⟨hne, hmatch⟩
    rw [hred]; unfold runPipelineT
    simp [hp, ht, htl, hraw, hguard]

/-- A pipeline process that failed outright (error status, exit code 23). -/
def failedPipeProc : Proc :=
  { status := "error", exitCode := some 23, durationMs := 200,
    getLogs := .ok { stdout := some "", stderr := some "rsync: connection lost" } }

def c4Behavior : Behavior :=
  mkBehavior (.ok (okProc 0 (statOut OPENCLAW_CONFIG_PATH))) (.ok spinningProc)
    (.ok (okProc 0 "/usr/bin/rsync")) (.ok (okProc 0 "2024-06-01T10:00:00Z"))
    (.ok failedPipeProc)

/-- Witness for C4: the pipeline process ends in error with exit code 23,
yet a shape-matching marker read makes the run a success. -/
theorem verification_trusts_only_marker_witness :
    syncToR2 c4Behavior envAll =
      { success := true, lastSync := some (jsTrim "2024-06-01T10:00:00Z") } :=
  (verification_trusts_only_marker c4Behavior envAll "/root/.openclaw"
    [configCheckCommand OPENCLAW_CONFIG_PATH] rsyncOkCheck failedPipeProc
    (okProc 0 "2024-06-01T10:00:00Z")
    { stdout := some "2024-06-01T10:00:00Z", stderr := some "" }
    rfl rfl rfl rfl (by decide) (by decide) rfl rfl (by decide)
    (by decide) (by decide) (by decide)).2
    "2024-06-01T10:00:00Z" rfl (by decide) (by decide)

/-- A 2500-character stream (2500 copies of `a`). -/
def longOut : String := String.mk (List.replicate 2500 (Char.ofNat 97))

/-- A 1999-character stream (1999 copies of `b`). -/
def shortOut : String := String.mk (List.replicate 1999 (Char.ofNat 98))

def c3Behavior : Behavior :=
  { mountResult := true,
    startProcess := fun _ =>
      .ok { status := "completed", exitCode := some 0, durationMs := 10,
            getLogs := .ok { stdout := some longOut, stderr := some "" } } }

def c3Result : CommandResult :=
  { command := rsyncCheckCommand, status := "completed", exitCode := some 0,
    stdout := longOut, stderr := "", durationMs := 10, didComplete := true }

/-- Claim C3 counterexample: `runCommandWithDetails` does not cap the
`stdout`/`stderr` fields of the `CommandResult` it returns — a process
whose captured stdout has 2500 characters yields a result whose `stdout`
field still has 2500 characters, unchanged and unequal to its truncation. -/
theorem runCommand_keeps_full_stream :
    runCommandWithDetails c3Behavior rsyncCheckCommand RSYNC_CHECK_TIMEOUT_MS = .ok c3Result ∧
    c3Result.stdout.length = 2500 ∧
    truncateOutput c3Result.stdout ≠ c3Result.stdout := by
  have hlen : c3Result.stdout.length = 2500 := by
    show (String.mk (List.replicate 2500 (Char.ofNat 97))).length = 2500
    rw [String.length_mk, List.length_replicate]
  refine ⟨rfl, hlen, ?_⟩
  have hgt : ¬ c3Result.stdout.length ≤ MAX_LOG_CHARS := by rw [hlen]; decide
  have hform : truncateOutput c3Result.stdout =
      String.mk (c3Result.stdout.data.take MAX_LOG_CHARS) ++ "\n...[truncated]" := by
    unfold truncateOutput
    rw [if_neg hgt]
  intro hcontra
  have hlen2 := congrArg String.length (hform.symm.trans hcontra)
  have hmk : (String.mk (c3Result.stdout.data.take MAX_LOG_CHARS)).length = 2000 := by
    show (String.mk ((List.replicate 2500 (Char.ofNat 97)).take MAX_LOG_CHARS)).length = 2000
    rw [String.length_mk, List.length_take, List.length_replicate]
    decide
  have hmark : ("\n...[truncated]" : String).length = 15 := by decide
  rw [hlen, String.length_append, hmk, hmark] at hlen2
  omega

/-- Claim C3 amended: the 2000-character cap with truncation marker is
applied where command results are rendered into diagnostic details —
`formatCommandResult` caps each stream independently via `truncateOutput` —
not to the `CommandResult` fields themselves; `truncateOutput` leaves a
stream of at most 2000 characters (such as one of length 1999) unchanged
and reduces a longer stream (such as one of length 2500) to exactly its
first 2000 characters followed by the truncation marker. -/
theorem truncation_in_diagnostics :
    (∀ r : CommandResult, (formatCommandResult r).stdout = truncateOutput r.stdout ∧
      (formatCommandResult r).stderr = truncateOutput r.stderr) ∧
    (∀ s : String, s.length ≤ 2000 → truncateOutput s = s) ∧
    (∀ s : String, 2000 < s.length →
      truncateOutput s = String.mk (s.data.take 2000) ++ "\n...[truncated]") ∧
    truncateOutput longOut =
      String.mk (List.replicate 2000 (Char.ofNat 97)) ++ "\n...[truncated]" ∧
    (String.mk (List.replicate 2000 (Char.ofNat 97))).length = 2000 ∧
    truncateOutput shortOut = shortOut := by
  have hlong : longOut.length = 2500 := by
    unfold longOut
    rw [String.length_mk, List.length_replicate]
  have hshort : shortOut.length = 1999 := by
    unfold shortOut
    rw [String.length_mk, List.length_replicate]
  refine ⟨fun r => ⟨rfl, rfl⟩, ?_, ?_, ?_,
    by rw [String.length_mk, List.length_replicate], ?_⟩
  · intro s h
    unfold truncateOutput MAX_LOG_CHARS
    rw [if_pos h]
  · intro s h
    unfold truncateOutput MAX_LOG_CHARS
    rw [if_neg (Nat.not_le.mpr h)]
  · unfold truncateOutput
    rw [if_neg (by rw [hlong]; decide)]
    show String.mk ((List.replicate 2500 (Char.ofNat 97)).take MAX_LOG_CHARS) ++
        "\n...[truncated]" =
      String.mk (List.replicate 2000 (Char.ofNat 97)) ++ "\n...[truncated]"
    rw [List.take_replicate]
    rfl
  · unfold truncateOutput
    rw [if_pos (by rw [hshort]; decide)]

/-- Witness for the amended C3: the cap facts applied at the concrete 1999-
and 2500-character streams. -/
theorem truncation_in_diagnostics_witness :
    truncateOutput shortOut = shortOut ∧
    truncateOutput longOut = String.mk (longOut.data.take 2000) ++ "\n...[truncated]" :=
  ⟨truncation_in_diagnostics.2.1 shortOut
     (by unfold shortOut; rw [String.length_mk, List.length_replicate]; omega),
   truncation_in_diagnostics.2.2.1 longOut
     (by unfold longOut; rw [String.length_mk, List.length_replicate]; omega)⟩

set_option maxRecDepth 10000 in
/-- Claim C9 counterexample: the workspace rsync copy stage of the pipeline
mirrors with `--delete` and `--no-times` but carries none of the
`*.lock`/`*.log`/`*.tmp` exclusions — so not every rsync copy stage
excludes the transient suffixes. -/
theorem workspace_stage_lacks_transient_excludes :
    rsyncWorkspaceStage ∈ pipelineRsyncStages "/root/.openclaw" ∧
    strHasSub (syncCommand "/root/.openclaw") rsyncWorkspaceStage = true ∧
    strHasSub rsyncWorkspaceStage "--delete" = true ∧
    strHasSub rsyncWorkspaceStage "--no-times" = true ∧
    strHasSub rsyncWorkspaceStage (excl "*.lock") = false ∧
    strHasSub rsyncWorkspaceStage (excl "*.log") = false ∧
    strHasSub rsyncWorkspaceStage (excl "*.tmp") = false := by
  refine ⟨by decide, by decide, by decide, by decide, by decide, by decide, by decide⟩

set_option maxRecDepth 10000 in
/-- Claim C9 amended: every rsync copy stage of the pipeline mirrors the
source (`--delete`) and does not attempt to preserve modification times
(`--no-times`), but the `*.lock`/`*.log`/`*.tmp` transient-suffix
exclusions appear only on the config-directory stage: the two workspace
stages and the skills stage contain none of those patterns — the workspace
stages carry the `skills` exclusion instead, and the skills stage carries
no `--exclude` flag at all; the chosen config directory is always one of
the two candidate roots. -/
theorem pipeline_mirror_semantics :
    (∀ dir ∈ (["/root/.openclaw", "/root/.clawdbot"] : List String),
      ∀ s ∈ pipelineRsyncStages dir,
        strHasSub s "--delete" = true ∧ strHasSub s "--no-times" = true ∧
        strHasSub (syncCommand dir) s = true) ∧
    (∀ dir ∈ (["/root/.openclaw", "/root/.clawdbot"] : List String),
      strHasSub (rsyncConfigStage dir) (excl "*.lock") = true ∧
      strHasSub (rsyncConfigStage dir) (excl "*.log") = true ∧
      strHasSub (rsyncConfigStage dir) (excl "*.tmp") = true) ∧
    (∀ s ∈ ([rsyncWorkspaceStage, rsyncClawdStage, rsyncSkillsStage] : List String),
      strHasSub s "*.lock" = false ∧
      strHasSub s "*.log" = false ∧
      strHasSub s "*.tmp" = false) ∧
    (strHasSub rsyncWorkspaceStage (excl "skills") = true ∧
     strHasSub rsyncClawdStage (excl "skills") = true ∧
     strHasSub rsyncSkillsStage "--exclude" = false) ∧
    (∀ (sandbox : Behavior) (dir : String) (lcalls : List String),
      locateConfigDir sandbox = (.chosen dir, lcalls) →
      dir = "/root/.openclaw" ∨ dir = "/root/.clawdbot") := by
  refine ⟨by decide, by decide, by decide, by decide, ?_⟩
  intro sandbox dir lcalls h
  unfold locateConfigDir at h
  repeat' split at h
  all_goals
    simp only [Prod.mk.injEq, ConfigOutcome.chosen.injEq, reduceCtorEq, false_and] at h
  all_goals obtain ⟨h1, -⟩ := h
  · exact Or.inl h1.symm
  · exact Or.inr h1.symm

set_option maxRecDepth 10000 in
/-- Witness for the amended C9: the mirror flags on the legacy-workspace
stage, the absence of the transient patterns on that same stage, and the
chosen-directory dichotomy at the concrete legacy-config run. -/
theorem pipeline_mirror_semantics_witness :
    (strHasSub rsyncClawdStage "--delete" = true ∧
     strHasSub rsyncClawdStage "--no-times" = true ∧
     strHasSub (syncCommand "/root/.openclaw") rsyncClawdStage = true) ∧
    (strHasSub rsyncClawdStage "*.lock" = false ∧
     strHasSub rsyncClawdStage "*.log" = false ∧
     strHasSub rsyncClawdStage "*.tmp" = false) ∧
    ("/root/.clawdbot" = "/root/.openclaw" ∨ "/root/.clawdbot" = "/root/.clawdbot") :=
  ⟨pipeline_mirror_semantics.1 "/root/.openclaw" (by decide) rsyncClawdStage (by decide),
   pipeline_mirror_semantics.2.2.1 rsyncClawdStage (by decide),
   pipeline_mirror_semantics.2.2.2.2 c5Behavior "/root/.clawdbot"
     [configCheckCommand OPENCLAW_CONFIG_PATH, configCheckCommand CLAWDBOT_CONFIG_PATH]
     (by decide)⟩

end Moltworker
